import Mathlib

/-!
# Verification of the cubic-EOS attraction-coefficient module

Shallow embedding of `src/pythermophy/cubic_eos.py` over the reals.
Each of the three equation-of-state families (Redlich-Kwong,
Soave-Redlich-Kwong, Peng-Robinson) is a structure holding the state its
Python constructor stores on `self`, a constructor from a `Fluid`, and the
three temperature-dependent attraction-coefficient methods `get_a`,
`get_diff_a_T`, `get_double_diff_a_T`.

Python's `x ** 0.5` is embedded as `Real.sqrt x` (the two agree on the
nonnegative reals, and every claim restricts to `T > 0`, `T_crit > 0`).

The parent class `CubicEOS` (file `cubic_parent.py`) and the `Fluid` class
are not part of the given sources; the parts of them these claims need are
modelled from the spec and marked as such.
-/

noncomputable section

namespace Pythermophy

/-- Modelled from the spec: `FluidSpec` holds critical pressure, critical
temperature, acentric factor and the gas constant `R` (the source file
reads `fluid.p_crit`, `fluid.T_crit`, `fluid.acentric` and `self.R`; the
`Fluid` class itself is not among the given sources). -/
structure Fluid where
  p_crit : ℝ
  T_crit : ℝ
  acentric : ℝ
  R : ℝ

/-- Modelled from the spec: construction fails with `ConfigError` when the
fluid constants are invalid. -/
inductive ConfigError where
  | configError

/-- Modelled from the spec: the state stored by the parent `CubicEOS`
constructor, the covolume `b` and the shape constants `δ1`, `δ2` defining
the denominator `V² + δ1·V + δ2` (the source passes four positional
numbers `(b, c, δ1, δ2)` to `super().__init__`; `cubic_parent.py` is not
among the given sources). -/
structure CubicCore where
  b : ℝ
  c : ℝ
  delta1 : ℝ
  delta2 : ℝ

/-- Modelled from the spec: the parent constructor validates the fluid,
failing with `ConfigError` if `p_crit <= 0` or `T_crit <= 0`. -/
def checkFluid (f : Fluid) : Except ConfigError Unit :=
  open Classical in
  if f.p_crit ≤ 0 ∨ f.T_crit ≤ 0 then .error ConfigError.configError
  else .ok ()

/-- State stored by `RedlichKwong.__init__` (source lines 16-24). -/
structure RedlichKwong where
  p_crit : ℝ
  T_crit : ℝ
  a0 : ℝ
  R : ℝ
  core : CubicCore

namespace RedlichKwong

/-- The field assignments of `RedlichKwong.__init__`:
`a0 = 0.42748 R² T_crit² / p_crit`, `b1 = 0.08664 R T_crit / p_crit`,
then `super().__init__(b1, 0., b1, 0., fluid)`. -/
def make (f : Fluid) : RedlichKwong :=
  let a0 := 0.42748 * f.R ^ 2 * f.T_crit ^ 2 / f.p_crit
  let b1 := 0.08664 * f.R * f.T_crit / f.p_crit
  { p_crit := f.p_crit, T_crit := f.T_crit, a0 := a0, R := f.R,
    core := { b := b1, c := 0, delta1 := b1, delta2 := 0 } }

/-- `RedlichKwong.__init__` including the spec-modelled parent
validation. -/
def init (f : Fluid) : Except ConfigError RedlichKwong :=
  (checkFluid f).map fun _ => make f

/-- `RedlichKwong.get_a` (source lines 26-31): `a0 / Tr**0.5`. -/
def get_a (e : RedlichKwong) (T : ℝ) : ℝ :=
  let Tr := T / e.T_crit
  e.a0 / Real.sqrt Tr

/-- `RedlichKwong.get_diff_a_T` (source lines 33-38):
`-0.5*a0/T/Tr**0.5`. -/
def get_diff_a_T (e : RedlichKwong) (T : ℝ) : ℝ :=
  let Tr := T / e.T_crit;
  -0.5 * e.a0 / T / Real.sqrt Tr

/-- `RedlichKwong.get_double_diff_a_T` (source lines 40-45):
`0.75*a0/T**2/Tr**0.5`. -/
def get_double_diff_a_T (e : RedlichKwong) (T : ℝ) : ℝ :=
  let Tr := T / e.T_crit
  0.75 * e.a0 / T ^ 2 / Real.sqrt Tr

end RedlichKwong

/-- State stored by `SoaveRedlichKwong.__init__` (source lines 58-68). -/
structure SoaveRedlichKwong where
  acentric : ℝ
  p_crit : ℝ
  T_crit : ℝ
  a0 : ℝ
  kappa : ℝ
  R : ℝ
  core : CubicCore

namespace SoaveRedlichKwong

/-- The field assignments of `SoaveRedlichKwong.__init__`:
`a0 = 0.42748 R² T_crit² / p_crit`, `b1 = 0.08664 R T_crit / p_crit`,
`kappa = 0.48508 + 1.55171 ω - 0.15613 ω²`,
then `super().__init__(b1, 0., b1, 0., fluid)`. -/
def make (f : Fluid) : SoaveRedlichKwong :=
  let a0 := 0.42748 * f.R ^ 2 * f.T_crit ^ 2 / f.p_crit
  let b1 := 0.08664 * f.R * f.T_crit / f.p_crit
  let kappa := 0.48508 + 1.55171 * f.acentric - 0.15613 * f.acentric ^ 2
  { acentric := f.acentric, p_crit := f.p_crit, T_crit := f.T_crit,
    a0 := a0, kappa := kappa, R := f.R,
    core := { b := b1, c := 0, delta1 := b1, delta2 := 0 } }

/-- `SoaveRedlichKwong.__init__` including the spec-modelled parent
validation. -/
def init (f : Fluid) : Except ConfigError SoaveRedlichKwong :=
  (checkFluid f).map fun _ => make f

/-- `SoaveRedlichKwong.get_a` (source lines 70-76):
`alpha = (1 + kappa*(1 - Tr**0.5))**2; alpha * a0`. -/
def get_a (e : SoaveRedlichKwong) (T : ℝ) : ℝ :=
  let Tr := T / e.T_crit
  let alpha := (1 + e.kappa * (1 - Real.sqrt Tr)) ^ 2
  alpha * e.a0

/-- `SoaveRedlichKwong.get_diff_a_T` (source lines 78-84):
`-(a0*kappa/T)*Tr**0.5*alpha0`. -/
def get_diff_a_T (e : SoaveRedlichKwong) (T : ℝ) : ℝ :=
  let Tr := T / e.T_crit
  let alpha0 := 1 + e.kappa * (1 - Real.sqrt Tr);
  -(e.a0 * e.kappa / T) * Real.sqrt Tr * alpha0

/-- `SoaveRedlichKwong.get_double_diff_a_T` (source lines 86-92):
`(0.5*a0*kappa**2/T**2)*Tr + (0.5*a0*kappa/T**2)*Tr**0.5*alpha0`. -/
def get_double_diff_a_T (e : SoaveRedlichKwong) (T : ℝ) : ℝ :=
  let Tr := T / e.T_crit
  let alpha0 := 1 + e.kappa * (1 - Real.sqrt Tr)
  0.5 * e.a0 * e.kappa ^ 2 / T ^ 2 * Tr
    + 0.5 * e.a0 * e.kappa / T ^ 2 * Real.sqrt Tr * alpha0

end SoaveRedlichKwong

/-- State stored by `PengRobinson.__init__` (source lines 105-115). -/
structure PengRobinson where
  acentric : ℝ
  p_crit : ℝ
  T_crit : ℝ
  a0 : ℝ
  kappa : ℝ
  R : ℝ
  core : CubicCore

namespace PengRobinson

/-- The field assignments of `PengRobinson.__init__`:
`a0 = 0.45724 R² T_crit² / p_crit`, `b1 = 0.07780 R T_crit / p_crit`,
`kappa = 0.37464 + 1.54226 ω - 0.26992 ω²`,
then `super().__init__(b1, 0., 2*b1, -b1**2, fluid)`. -/
def make (f : Fluid) : PengRobinson :=
  let a0 := 0.45724 * f.R ^ 2 * f.T_crit ^ 2 / f.p_crit
  let b1 := 0.07780 * f.R * f.T_crit / f.p_crit
  let kappa := 0.37464 + 1.54226 * f.acentric - 0.26992 * f.acentric ^ 2
  { acentric := f.acentric, p_crit := f.p_crit, T_crit := f.T_crit,
    a0 := a0, kappa := kappa, R := f.R,
    core := { b := b1, c := 0, delta1 := 2 * b1, delta2 := -b1 ^ 2 } }

/-- `PengRobinson.__init__` including the spec-modelled parent
validation. -/
def init (f : Fluid) : Except ConfigError PengRobinson :=
  (checkFluid f).map fun _ => make f

/-- `PengRobinson.get_a` (source lines 117-123):
`alpha = (1 + kappa*(1 - Tr**0.5))**2; alpha * a0`. -/
def get_a (e : PengRobinson) (T : ℝ) : ℝ :=
  let Tr := T / e.T_crit
  let alpha := (1 + e.kappa * (1 - Real.sqrt Tr)) ^ 2
  alpha * e.a0

/-- `PengRobinson.get_diff_a_T` (source lines 125-131):
`-(a0*kappa/T)*Tr**0.5*alpha0`. -/
def get_diff_a_T (e : PengRobinson) (T : ℝ) : ℝ :=
  let Tr := T / e.T_crit
  let alpha0 := 1 + e.kappa * (1 - Real.sqrt Tr);
  -(e.a0 * e.kappa / T) * Real.sqrt Tr * alpha0

/-- `PengRobinson.get_double_diff_a_T` (source lines 133-139):
`(0.5*a0*kappa**2/T**2)*Tr + (0.5*a0*kappa/T**2)*Tr**0.5*alpha0`. -/
def get_double_diff_a_T (e : PengRobinson) (T : ℝ) : ℝ :=
  let Tr := T / e.T_crit
  let alpha0 := 1 + e.kappa * (1 - Real.sqrt Tr)
  0.5 * e.a0 * e.kappa ^ 2 / T ^ 2 * Tr
    + 0.5 * e.a0 * e.kappa / T ^ 2 * Real.sqrt Tr * alpha0

end PengRobinson

/-! ## Claims -/

/-- C1: for every fluid with `p_crit > 0`, `T_crit > 0` and every `T > 0`,
`SoaveRedlichKwong.get_a` and `PengRobinson.get_a` both return `α0² · a0`
where `α0 = 1 + κ(1 − √(T/T_crit))`, with
`a0 = 0.42748 R² T_crit² / p_crit` and `κ = 0.48508 + 1.55171 ω − 0.15613 ω²`
for SRK, and `a0 = 0.45724 R² T_crit² / p_crit` and
`κ = 0.37464 + 1.54226 ω − 0.26992 ω²` for PR. -/
theorem srk_pr_get_a_formula (f : Fluid) (T : ℝ)
    (hp : 0 < f.p_crit) (hc : 0 < f.T_crit) (hT : 0 < T) :
    (SoaveRedlichKwong.make f).get_a T =
      (1 + (0.48508 + 1.55171 * f.acentric - 0.15613 * f.acentric ^ 2)
          * (1 - Real.sqrt (T / f.T_crit))) ^ 2
        * (0.42748 * f.R ^ 2 * f.T_crit ^ 2 / f.p_crit) ∧
    (PengRobinson.make f).get_a T =
      (1 + (0.37464 + 1.54226 * f.acentric - 0.26992 * f.acentric ^ 2)
          * (1 - Real.sqrt (T / f.T_crit))) ^ 2
        * (0.45724 * f.R ^ 2 * f.T_crit ^ 2 / f.p_crit) :=
  ⟨rfl, rfl⟩

/-- Witness for C1 at the concrete fluid `(1, 1, 0, 1)` and `T = 1`. -/
theorem srk_pr_get_a_formula_witness :
    (SoaveRedlichKwong.make ⟨1, 1, 0, 1⟩).get_a 1 =
      (1 + (0.48508 + 1.55171 * (0 : ℝ) - 0.15613 * (0 : ℝ) ^ 2)
          * (1 - Real.sqrt ((1 : ℝ) / 1))) ^ 2
        * (0.42748 * (1 : ℝ) ^ 2 * (1 : ℝ) ^ 2 / 1) ∧
    (PengRobinson.make ⟨1, 1, 0, 1⟩).get_a 1 =
      (1 + (0.37464 + 1.54226 * (0 : ℝ) - 0.26992 * (0 : ℝ) ^ 2)
          * (1 - Real.sqrt ((1 : ℝ) / 1))) ^ 2
        * (0.45724 * (1 : ℝ) ^ 2 * (1 : ℝ) ^ 2 / 1) :=
  srk_pr_get_a_formula ⟨1, 1, 0, 1⟩ 1 (by norm_num) (by norm_num) (by norm_num)

/-- C2: for every fluid with `p_crit > 0`, `T_crit > 0` and every `T > 0`,
with `Tr = T/T_crit` and `a0 = 0.42748 R² T_crit² / p_crit`,
`RedlichKwong.get_a` returns `a0 · Tr^(−0.5)`, `get_diff_a_T` returns
`−0.5 a0 / T · Tr^(−0.5)`, and `get_double_diff_a_T` returns
`0.75 a0 / T² · Tr^(−0.5)`. -/
theorem rk_formulas (f : Fluid) (T : ℝ)
    (hp : 0 < f.p_crit) (hc : 0 < f.T_crit) (hT : 0 < T) :
    (RedlichKwong.make f).get_a T =
      (0.42748 * f.R ^ 2 * f.T_crit ^ 2 / f.p_crit)
        * (T / f.T_crit) ^ (-(0.5 : ℝ)) ∧
    (RedlichKwong.make f).get_diff_a_T T =
      -0.5 * (0.42748 * f.R ^ 2 * f.T_crit ^ 2 / f.p_crit) / T
        * (T / f.T_crit) ^ (-(0.5 : ℝ)) ∧
    (RedlichKwong.make f).get_double_diff_a_T T =
      0.75 * (0.42748 * f.R ^ 2 * f.T_crit ^ 2 / f.p_crit) / T ^ 2
        * (T / f.T_crit) ^ (-(0.5 : ℝ)) := by
  have hTr : (0 : ℝ) < T / f.T_crit := div_pos hT hc
  have hpow : (T / f.T_crit) ^ (-(0.5 : ℝ)) = (Real.sqrt (T / f.T_crit))⁻¹ := by
    rw [Real.rpow_neg hTr.le, Real.sqrt_eq_rpow]
    norm_num
  refine ⟨?_, ?_, ?_⟩ <;>
  · simp only [RedlichKwong.make, RedlichKwong.get_a, RedlichKwong.get_diff_a_T,
      RedlichKwong.get_double_diff_a_T]
    rw [hpow, div_eq_mul_inv]

/-- Witness for C2 at the concrete fluid `(1, 1, 0, 1)` and `T = 4`. -/
theorem rk_formulas_witness :
    (RedlichKwong.make ⟨1, 1, 0, 1⟩).get_a 4 =
      (0.42748 * (1 : ℝ) ^ 2 * (1 : ℝ) ^ 2 / 1) * ((4 : ℝ) / 1) ^ (-(0.5 : ℝ)) ∧
    (RedlichKwong.make ⟨1, 1, 0, 1⟩).get_diff_a_T 4 =
      -0.5 * (0.42748 * (1 : ℝ) ^ 2 * (1 : ℝ) ^ 2 / 1) / 4
        * ((4 : ℝ) / 1) ^ (-(0.5 : ℝ)) ∧
    (RedlichKwong.make ⟨1, 1, 0, 1⟩).get_double_diff_a_T 4 =
      0.75 * (0.42748 * (1 : ℝ) ^ 2 * (1 : ℝ) ^ 2 / 1) / (4 : ℝ) ^ 2
        * ((4 : ℝ) / 1) ^ (-(0.5 : ℝ)) :=
  rk_formulas ⟨1, 1, 0, 1⟩ 4 (by norm_num) (by norm_num) (by norm_num)

/-- C4: for every fluid, the constructors pass the family-to-parameter
mapping of the spec's table to the parent `CubicEOS` constructor:
RK and SRK pass `b = 0.08664 R T_crit / p_crit` with `δ1 = b`, `δ2 = 0`;
PR passes `b = 0.07780 R T_crit / p_crit` with `δ1 = 2b`, `δ2 = −b²`. -/
theorem constructor_parameter_table (f : Fluid) :
    ((RedlichKwong.make f).core.b = 0.08664 * f.R * f.T_crit / f.p_crit ∧
      (RedlichKwong.make f).core.delta1 = (RedlichKwong.make f).core.b ∧
      (RedlichKwong.make f).core.delta2 = 0) ∧
    ((SoaveRedlichKwong.make f).core.b = 0.08664 * f.R * f.T_crit / f.p_crit ∧
      (SoaveRedlichKwong.make f).core.delta1 = (SoaveRedlichKwong.make f).core.b ∧
      (SoaveRedlichKwong.make f).core.delta2 = 0) ∧
    ((PengRobinson.make f).core.b = 0.07780 * f.R * f.T_crit / f.p_crit ∧
      (PengRobinson.make f).core.delta1 = 2 * (PengRobinson.make f).core.b ∧
      (PengRobinson.make f).core.delta2 = -(PengRobinson.make f).core.b ^ 2) :=
  ⟨⟨rfl, rfl, rfl⟩, ⟨rfl, rfl, rfl⟩, ⟨rfl, rfl, rfl⟩⟩

/-- C8: `RedlichKwong` results do not depend on the fluid's acentric
factor: two fluids agreeing on `p_crit`, `T_crit` and `R` yield RK
instances returning identical `get_a`, `get_diff_a_T` and
`get_double_diff_a_T` at every `T > 0`. -/
theorem rk_ignores_acentric (f1 f2 : Fluid) (T : ℝ)
    (hp : f1.p_crit = f2.p_crit) (hc : f1.T_crit = f2.T_crit)
    (hR : f1.R = f2.R) (hT : 0 < T) :
    (RedlichKwong.make f1).get_a T = (RedlichKwong.make f2).get_a T ∧
    (RedlichKwong.make f1).get_diff_a_T T
      = (RedlichKwong.make f2).get_diff_a_T T ∧
    (RedlichKwong.make f1).get_double_diff_a_T T
      = (RedlichKwong.make f2).get_double_diff_a_T T := by
  simp only [RedlichKwong.make, RedlichKwong.get_a, RedlichKwong.get_diff_a_T,
    RedlichKwong.get_double_diff_a_T, hp, hc, hR, and_self]

/-- Witness for C8: two fluids differing only in acentric factor. -/
theorem rk_ignores_acentric_witness :
    (RedlichKwong.make ⟨1, 1, 0, 1⟩).get_a 1
      = (RedlichKwong.make ⟨1, 1, 5, 1⟩).get_a 1 ∧
    (RedlichKwong.make ⟨1, 1, 0, 1⟩).get_diff_a_T 1
      = (RedlichKwong.make ⟨1, 1, 5, 1⟩).get_diff_a_T 1 ∧
    (RedlichKwong.make ⟨1, 1, 0, 1⟩).get_double_diff_a_T 1
      = (RedlichKwong.make ⟨1, 1, 5, 1⟩).get_double_diff_a_T 1 :=
  rk_ignores_acentric ⟨1, 1, 0, 1⟩ ⟨1, 1, 5, 1⟩ 1 rfl rfl rfl (by norm_num)

/-- C9: for each family and every fluid with `p_crit > 0`, `T_crit > 0`,
evaluating the attraction coefficient at the critical temperature recovers
the stored constant exactly: `get_a T_crit = a0`. -/
theorem get_a_at_critical (f : Fluid) (hp : 0 < f.p_crit) (hc : 0 < f.T_crit) :
    (RedlichKwong.make f).get_a f.T_crit = (RedlichKwong.make f).a0 ∧
    (SoaveRedlichKwong.make f).get_a f.T_crit = (SoaveRedlichKwong.make f).a0 ∧
    (PengRobinson.make f).get_a f.T_crit = (PengRobinson.make f).a0 := by
  have h : f.T_crit / f.T_crit = 1 := div_self (ne_of_gt hc)
  simp [RedlichKwong.make, RedlichKwong.get_a, SoaveRedlichKwong.make,
    SoaveRedlichKwong.get_a, PengRobinson.make, PengRobinson.get_a, h]

/-- Witness for C9 at the concrete fluid `(2, 3, 0, 1)`. -/
theorem get_a_at_critical_witness :
    (RedlichKwong.make ⟨2, 3, 0, 1⟩).get_a 3 = (RedlichKwong.make ⟨2, 3, 0, 1⟩).a0 ∧
    (SoaveRedlichKwong.make ⟨2, 3, 0, 1⟩).get_a 3
      = (SoaveRedlichKwong.make ⟨2, 3, 0, 1⟩).a0 ∧
    (PengRobinson.make ⟨2, 3, 0, 1⟩).get_a 3
      = (PengRobinson.make ⟨2, 3, 0, 1⟩).a0 :=
  get_a_at_critical ⟨2, 3, 0, 1⟩ (by norm_num) (by norm_num)

/-- C5 counterexample: the SRK attraction coefficient vanishes (is not
strictly positive) at the in-domain input `p_crit = 1`, `T_crit = 1`,
`acentric = 0`, `R = 1`, `T = (1.48508/0.48508)²`, where
`1 + κ(1 − √Tr) = 0`. -/
theorem get_a_positive_counterexample :
    0 < ((1 : ℝ)) ∧ 0 < ((148508 / 48508 : ℝ) ^ 2) ∧
    ¬ 0 < (SoaveRedlichKwong.make ⟨1, 1, 0, 1⟩).get_a ((148508 / 48508 : ℝ) ^ 2) := by
  refine ⟨by norm_num, by norm_num, ?_⟩
  have hs : Real.sqrt (((148508 / 48508 : ℝ) ^ 2) / 1) = 148508 / 48508 := by
    rw [div_one, Real.sqrt_sq (by norm_num)]
  simp only [SoaveRedlichKwong.make, SoaveRedlichKwong.get_a, hs]
  norm_num

/-- C5 amended: for every fluid with `p_crit > 0`, `T_crit > 0`, `R > 0`
and every `T > 0`, `RedlichKwong.get_a` is strictly positive, while
`SoaveRedlichKwong.get_a` and `PengRobinson.get_a` are nonnegative (they
vanish where `1 + κ(1 − √Tr) = 0`). -/
theorem get_a_positivity (f : Fluid) (T : ℝ)
    (hp : 0 < f.p_crit) (hc : 0 < f.T_crit) (hR : 0 < f.R) (hT : 0 < T) :
    0 < (RedlichKwong.make f).get_a T ∧
    0 ≤ (SoaveRedlichKwong.make f).get_a T ∧
    0 ≤ (PengRobinson.make f).get_a T := by
  have hTr : (0 : ℝ) < T / f.T_crit := div_pos hT hc
  have hsqrt : (0 : ℝ) < Real.sqrt (T / f.T_crit) := Real.sqrt_pos.mpr hTr
  refine ⟨?_, ?_, ?_⟩
  · have ha0 : (0 : ℝ) < 0.42748 * f.R ^ 2 * f.T_crit ^ 2 / f.p_crit := by positivity
    exact div_pos ha0 hsqrt
  · have ha0 : (0 : ℝ) < 0.42748 * f.R ^ 2 * f.T_crit ^ 2 / f.p_crit := by positivity
    exact mul_nonneg (sq_nonneg _) ha0.le
  · have ha0 : (0 : ℝ) < 0.45724 * f.R ^ 2 * f.T_crit ^ 2 / f.p_crit := by positivity
    exact mul_nonneg (sq_nonneg _) ha0.le

/-- Witness for the amended C5 at the concrete fluid `(1, 1, 0, 1)`,
`T = 1`. -/
theorem get_a_positivity_witness :
    0 < (RedlichKwong.make ⟨1, 1, 0, 1⟩).get_a 1 ∧
    0 ≤ (SoaveRedlichKwong.make ⟨1, 1, 0, 1⟩).get_a 1 ∧
    0 ≤ (PengRobinson.make ⟨1, 1, 0, 1⟩).get_a 1 :=
  get_a_positivity ⟨1, 1, 0, 1⟩ 1 (by norm_num) (by norm_num) (by norm_num)
    (by norm_num)

/-- C10: for SRK and PR, for every fluid with `p_crit > 0`, `T_crit > 0`,
`R > 0` (any real acentric factor) and every `T > 0`, `get_a T` is
nonnegative and equals zero exactly when `1 + κ(1 − √(T/T_crit)) = 0`. -/
theorem srk_pr_get_a_nonneg_zero_iff (f : Fluid) (T : ℝ)
    (hp : 0 < f.p_crit) (hc : 0 < f.T_crit) (hR : 0 < f.R) (hT : 0 < T) :
    (0 ≤ (SoaveRedlichKwong.make f).get_a T ∧
      ((SoaveRedlichKwong.make f).get_a T = 0 ↔
        1 + (SoaveRedlichKwong.make f).kappa
          * (1 - Real.sqrt (T / f.T_crit)) = 0)) ∧
    (0 ≤ (PengRobinson.make f).get_a T ∧
      ((PengRobinson.make f).get_a T = 0 ↔
        1 + (PengRobinson.make f).kappa
          * (1 - Real.sqrt (T / f.T_crit)) = 0)) := by
  have ha1 : (0 : ℝ) < 0.42748 * f.R ^ 2 * f.T_crit ^ 2 / f.p_crit := by positivity
  have ha2 : (0 : ℝ) < 0.45724 * f.R ^ 2 * f.T_crit ^ 2 / f.p_crit := by positivity
  constructor
  · constructor
    · exact mul_nonneg (sq_nonneg _) ha1.le
    · show (1 + (SoaveRedlichKwong.make f).kappa
          * (1 - Real.sqrt (T / f.T_crit))) ^ 2
          * (SoaveRedlichKwong.make f).a0 = 0 ↔ _
      rw [mul_eq_zero, sq_eq_zero_iff]
      have : (SoaveRedlichKwong.make f).a0 ≠ 0 := ne_of_gt ha1
      tauto
  · constructor
    · exact mul_nonneg (sq_nonneg _) ha2.le
    · show (1 + (PengRobinson.make f).kappa
          * (1 - Real.sqrt (T / f.T_crit))) ^ 2
          * (PengRobinson.make f).a0 = 0 ↔ _
      rw [mul_eq_zero, sq_eq_zero_iff]
      have : (PengRobinson.make f).a0 ≠ 0 := ne_of_gt ha2
      tauto

/-- Witness for C10 at the concrete fluid `(1, 1, 0, 1)`, `T = 1`. -/
theorem srk_pr_get_a_nonneg_zero_iff_witness :
    (0 ≤ (SoaveRedlichKwong.make ⟨1, 1, 0, 1⟩).get_a 1 ∧
      ((SoaveRedlichKwong.make ⟨1, 1, 0, 1⟩).get_a 1 = 0 ↔
        1 + (SoaveRedlichKwong.make ⟨1, 1, 0, 1⟩).kappa
          * (1 - Real.sqrt ((1 : ℝ) / 1)) = 0)) ∧
    (0 ≤ (PengRobinson.make ⟨1, 1, 0, 1⟩).get_a 1 ∧
      ((PengRobinson.make ⟨1, 1, 0, 1⟩).get_a 1 = 0 ↔
        1 + (PengRobinson.make ⟨1, 1, 0, 1⟩).kappa
          * (1 - Real.sqrt ((1 : ℝ) / 1)) = 0)) :=
  srk_pr_get_a_nonneg_zero_iff ⟨1, 1, 0, 1⟩ 1 (by norm_num) (by norm_num)
    (by norm_num) (by norm_num)

/-- C6: construction of any of the three EOS instances fails with
`ConfigError` when `p_crit ≤ 0` or `T_crit ≤ 0`, and succeeds for every
fluid with `p_crit > 0` and `T_crit > 0` (validation modelled from the
spec, see `checkFluid`). -/
theorem construction_validation (f : Fluid) :
    ((f.p_crit ≤ 0 ∨ f.T_crit ≤ 0) →
      RedlichKwong.init f = Except.error ConfigError.configError ∧
      SoaveRedlichKwong.init f = Except.error ConfigError.configError ∧
      PengRobinson.init f = Except.error ConfigError.configError) ∧
    (0 < f.p_crit → 0 < f.T_crit →
      RedlichKwong.init f = Except.ok (RedlichKwong.make f) ∧
      SoaveRedlichKwong.init f = Except.ok (SoaveRedlichKwong.make f) ∧
      PengRobinson.init f = Except.ok (PengRobinson.make f)) := by
  constructor
  · intro h
    simp only [RedlichKwong.init, SoaveRedlichKwong.init, PengRobinson.init,
      checkFluid, if_pos h, Except.map, and_self]
  · intro h1 h2
    have h : ¬(f.p_crit ≤ 0 ∨ f.T_crit ≤ 0) := by
      push_neg
      exact ⟨h1, h2⟩
    simp only [RedlichKwong.init, SoaveRedlichKwong.init, PengRobinson.init,
      checkFluid, if_neg h, Except.map, and_self]

/-- Witness for C6: rejection at `p_crit = -1` and acceptance at
`p_crit = 1` (with `T_crit = 1`). -/
theorem construction_validation_witness :
    RedlichKwong.init ⟨-1, 1, 0, 1⟩ = Except.error ConfigError.configError ∧
    RedlichKwong.init ⟨1, 1, 0, 1⟩ = Except.ok (RedlichKwong.make ⟨1, 1, 0, 1⟩) :=
  ⟨((construction_validation ⟨-1, 1, 0, 1⟩).1 (by norm_num)).1,
    ((construction_validation ⟨1, 1, 0, 1⟩).2 (by norm_num) (by norm_num)).1⟩

/-- C7: SRK and PR compute one and the same parameterized function of
`(a0, κ, T_crit)`: whenever an SRK instance and a PR instance agree on the
stored `a0`, `kappa` and `T_crit`, they return equal `get_a`,
`get_diff_a_T` and `get_double_diff_a_T` at every `T > 0`. -/
theorem srk_pr_shared_formula (f1 f2 : Fluid) (T : ℝ)
    (ha : (SoaveRedlichKwong.make f1).a0 = (PengRobinson.make f2).a0)
    (hk : (SoaveRedlichKwong.make f1).kappa = (PengRobinson.make f2).kappa)
    (hc : (SoaveRedlichKwong.make f1).T_crit = (PengRobinson.make f2).T_crit)
    (hT : 0 < T) :
    (SoaveRedlichKwong.make f1).get_a T = (PengRobinson.make f2).get_a T ∧
    (SoaveRedlichKwong.make f1).get_diff_a_T T
      = (PengRobinson.make f2).get_diff_a_T T ∧
    (SoaveRedlichKwong.make f1).get_double_diff_a_T T
      = (PengRobinson.make f2).get_double_diff_a_T T := by
  simp only [SoaveRedlichKwong.get_a, PengRobinson.get_a,
    SoaveRedlichKwong.get_diff_a_T, PengRobinson.get_diff_a_T,
    SoaveRedlichKwong.get_double_diff_a_T, PengRobinson.get_double_diff_a_T,
    ha, hk, hc, and_self]

/-- Witness for C7: an SRK fluid with `ω = 0` and a PR fluid whose
acentric factor is a root of `0.26992 ω² − 1.54226 ω + 0.11044 = 0`, so
that both instances store `a0 = 1`, `κ = 0.48508`, `T_crit = 1`. -/
theorem srk_pr_shared_formula_witness :
    ((SoaveRedlichKwong.make ⟨0.42748, 1, 0, 1⟩).get_a 2
      = (PengRobinson.make ⟨0.45724, 1,
          (1.54226 - Real.sqrt 2.2593260484) / 0.53984, 1⟩).get_a 2) ∧
    ((SoaveRedlichKwong.make ⟨0.42748, 1, 0, 1⟩).get_diff_a_T 2
      = (PengRobinson.make ⟨0.45724, 1,
          (1.54226 - Real.sqrt 2.2593260484) / 0.53984, 1⟩).get_diff_a_T 2) ∧
    ((SoaveRedlichKwong.make ⟨0.42748, 1, 0, 1⟩).get_double_diff_a_T 2
      = (PengRobinson.make ⟨0.45724, 1,
          (1.54226 - Real.sqrt 2.2593260484) / 0.53984, 1⟩).get_double_diff_a_T 2) :=
  srk_pr_shared_formula ⟨0.42748, 1, 0, 1⟩
    ⟨0.45724, 1, (1.54226 - Real.sqrt 2.2593260484) / 0.53984, 1⟩ 2
    (by simp only [SoaveRedlichKwong.make, PengRobinson.make]; norm_num)
    (by
      have hD : Real.sqrt (2.2593260484 : ℝ) ^ 2 = 2.2593260484 :=
        Real.sq_sqrt (by norm_num)
      simp only [SoaveRedlichKwong.make, PengRobinson.make]
      linear_combination hD / (4 * (0.26992 : ℝ)))
    rfl (by norm_num)

/-! ### Derivative helper lemmas for C3 -/

/-- Derivative of the reduced-temperature square root `t ↦ √(t/K)`. -/
theorem hasDerivAt_sqrt_div (K : ℝ) (hK : 0 < K) {T : ℝ} (hT : 0 < T) :
    HasDerivAt (fun t => Real.sqrt (t / K))
      (1 / (2 * Real.sqrt (T / K)) * (1 / K)) T := by
  have h1 : HasDerivAt (fun t : ℝ => t / K) (1 / K) T :=
    (hasDerivAt_id T).div_const K
  have h2 := Real.hasDerivAt_sqrt (ne_of_gt (div_pos hT hK))
  simpa [Function.comp] using h2.comp T h1

/-- Derivative of the RK attraction coefficient `t ↦ c/√(t/K)`. -/
theorem rk_a_deriv (c K : ℝ) (hK : 0 < K) {T : ℝ} (hT : 0 < T) :
    HasDerivAt (fun t => c / Real.sqrt (t / K))
      (-0.5 * c / T / Real.sqrt (T / K)) T := by
  have hTr := div_pos hT hK
  have hs0 : (0 : ℝ) < Real.sqrt (T / K) := Real.sqrt_pos.mpr hTr
  have hs := hasDerivAt_sqrt_div K hK hT
  have h4 := (hs.inv (ne_of_gt hs0)).const_mul c
  have hfun : (fun t => c / Real.sqrt (t / K))
      = fun t => c * (Real.sqrt (t / K))⁻¹ := by
    funext t
    rw [div_eq_mul_inv]
  rw [hfun]
  convert h4 using 1
  have hsq : Real.sqrt (T / K) ^ 2 = T / K := Real.sq_sqrt hTr.le
  have hT2 : T = Real.sqrt (T / K) ^ 2 * K := by
    rw [hsq]
    field_simp
  have hsne : Real.sqrt (T / K) ≠ 0 := ne_of_gt hs0
  have hKne : K ≠ 0 := ne_of_gt hK
  set s := Real.sqrt (T / K)
  rw [hT2]
  field_simp
  ring

/-- Derivative of the RK first temperature derivative
`t ↦ −0.5 c / t / √(t/K)`. -/
theorem rk_diff_a_deriv (c K : ℝ) (hK : 0 < K) {T : ℝ} (hT : 0 < T) :
    HasDerivAt (fun t => -0.5 * c / t / Real.sqrt (t / K))
      (0.75 * c / T ^ 2 / Real.sqrt (T / K)) T := by
  have hTr := div_pos hT hK
  have hs0 : (0 : ℝ) < Real.sqrt (T / K) := Real.sqrt_pos.mpr hTr
  have hs := hasDerivAt_sqrt_div K hK hT
  have h4 := ((hasDerivAt_inv (ne_of_gt hT)).mul
    (hs.inv (ne_of_gt hs0))).const_mul (-0.5 * c)
  have hfun : (fun t => -0.5 * c / t / Real.sqrt (t / K))
      = fun t => -0.5 * c * (t⁻¹ * (Real.sqrt (t / K))⁻¹) := by
    funext t
    rw [div_eq_mul_inv, div_eq_mul_inv, mul_assoc]
  rw [hfun]
  convert h4 using 1
  have hsq : Real.sqrt (T / K) ^ 2 = T / K := Real.sq_sqrt hTr.le
  have hT2 : T = Real.sqrt (T / K) ^ 2 * K := by
    rw [hsq]
    field_simp
  have hsne : Real.sqrt (T / K) ≠ 0 := ne_of_gt hs0
  have hKne : K ≠ 0 := ne_of_gt hK
  set s := Real.sqrt (T / K)
  rw [hT2]
  field_simp
  ring

/-- Derivative of the shared SRK/PR alpha factor
`t ↦ 1 + k(1 − √(t/K))`. -/
theorem alpha0_deriv (k K : ℝ) (hK : 0 < K) {T : ℝ} (hT : 0 < T) :
    HasDerivAt (fun t => 1 + k * (1 - Real.sqrt (t / K)))
      (k * -(1 / (2 * Real.sqrt (T / K)) * (1 / K))) T :=
  (((hasDerivAt_sqrt_div K hK hT).const_sub 1).const_mul k).const_add 1

/-- Derivative of the SRK/PR attraction coefficient
`t ↦ (1 + k(1 − √(t/K)))² c`. -/
theorem srk_a_deriv (c k K : ℝ) (hK : 0 < K) {T : ℝ} (hT : 0 < T) :
    HasDerivAt (fun t => (1 + k * (1 - Real.sqrt (t / K))) ^ 2 * c)
      (-(c * k / T) * Real.sqrt (T / K)
        * (1 + k * (1 - Real.sqrt (T / K)))) T := by
  have hTr := div_pos hT hK
  have hs0 : (0 : ℝ) < Real.sqrt (T / K) := Real.sqrt_pos.mpr hTr
  have h4 := ((alpha0_deriv k K hK hT).pow 2).mul_const c
  convert h4 using 1
  have hsq : Real.sqrt (T / K) ^ 2 = T / K := Real.sq_sqrt hTr.le
  have hT2 : T = Real.sqrt (T / K) ^ 2 * K := by
    rw [hsq]
    field_simp
  have hsne : Real.sqrt (T / K) ≠ 0 := ne_of_gt hs0
  have hKne : K ≠ 0 := ne_of_gt hK
  set s := Real.sqrt (T / K)
  rw [hT2]
  push_cast
  field_simp
  ring

/-- Derivative of the SRK/PR first temperature derivative
`t ↦ −(ck/t)·√(t/K)·(1 + k(1 − √(t/K)))`. -/
theorem srk_diff_a_deriv (c k K : ℝ) (hK : 0 < K) {T : ℝ} (hT : 0 < T) :
    HasDerivAt
      (fun t => -(c * k / t) * Real.sqrt (t / K)
        * (1 + k * (1 - Real.sqrt (t / K))))
      (0.5 * c * k ^ 2 / T ^ 2 * (T / K)
        + 0.5 * c * k / T ^ 2 * Real.sqrt (T / K)
          * (1 + k * (1 - Real.sqrt (T / K)))) T := by
  have hTr := div_pos hT hK
  have hs0 : (0 : ℝ) < Real.sqrt (T / K) := Real.sqrt_pos.mpr hTr
  have hs := hasDerivAt_sqrt_div K hK hT
  have hu1 := (hasDerivAt_inv (ne_of_gt hT)).const_mul (-(c * k))
  have h4 := (hu1.mul hs).mul (alpha0_deriv k K hK hT)
  convert h4 using 1
  · funext t
    ring
  have hsq : Real.sqrt (T / K) ^ 2 = T / K := Real.sq_sqrt hTr.le
  have hT2 : T = Real.sqrt (T / K) ^ 2 * K := by
    rw [hsq]
    field_simp
  have hsne : Real.sqrt (T / K) ≠ 0 := ne_of_gt hs0
  have hKne : K ≠ 0 := ne_of_gt hK
  set s := Real.sqrt (T / K)
  rw [hT2]
  field_simp
  ring

/-- C3: for each of the three families and every fluid with `p_crit > 0`
and `T_crit > 0`, `get_diff_a_T` is the exact first derivative of `get_a`
at every `T > 0`, and `get_double_diff_a_T` is the exact derivative of
`get_diff_a_T` (hence the exact second derivative of `get_a`) at every
`T > 0`. -/
theorem attraction_derivatives (f : Fluid) (T : ℝ)
    (hp : 0 < f.p_crit) (hc : 0 < f.T_crit) (hT : 0 < T) :
    (HasDerivAt (fun t => (RedlichKwong.make f).get_a t)
        ((RedlichKwong.make f).get_diff_a_T T) T ∧
      HasDerivAt (fun t => (RedlichKwong.make f).get_diff_a_T t)
        ((RedlichKwong.make f).get_double_diff_a_T T) T) ∧
    (HasDerivAt (fun t => (SoaveRedlichKwong.make f).get_a t)
        ((SoaveRedlichKwong.make f).get_diff_a_T T) T ∧
      HasDerivAt (fun t => (SoaveRedlichKwong.make f).get_diff_a_T t)
        ((SoaveRedlichKwong.make f).get_double_diff_a_T T) T) ∧
    (HasDerivAt (fun t => (PengRobinson.make f).get_a t)
        ((PengRobinson.make f).get_diff_a_T T) T ∧
      HasDerivAt (fun t => (PengRobinson.make f).get_diff_a_T t)
        ((PengRobinson.make f).get_double_diff_a_T T) T) := by
  refine ⟨⟨?_, ?_⟩, ⟨?_, ?_⟩, ⟨?_, ?_⟩⟩
  · simp only [RedlichKwong.get_a, RedlichKwong.get_diff_a_T]
    exact rk_a_deriv _ _ hc hT
  · simp only [RedlichKwong.get_diff_a_T, RedlichKwong.get_double_diff_a_T]
    exact rk_diff_a_deriv _ _ hc hT
  · simp only [SoaveRedlichKwong.get_a, SoaveRedlichKwong.get_diff_a_T]
    exact srk_a_deriv _ _ _ hc hT
  · simp only [SoaveRedlichKwong.get_diff_a_T,
      SoaveRedlichKwong.get_double_diff_a_T]
    exact srk_diff_a_deriv _ _ _ hc hT
  · simp only [PengRobinson.get_a, PengRobinson.get_diff_a_T]
    exact srk_a_deriv _ _ _ hc hT
  · simp only [PengRobinson.get_diff_a_T, PengRobinson.get_double_diff_a_T]
    exact srk_diff_a_deriv _ _ _ hc hT

/-- Witness for C3 at the concrete fluid `(1, 1, 0, 1)`, `T = 1`. -/
theorem attraction_derivatives_witness :
    (HasDerivAt (fun t => (RedlichKwong.make ⟨1, 1, 0, 1⟩).get_a t)
        ((RedlichKwong.make ⟨1, 1, 0, 1⟩).get_diff_a_T 1) 1 ∧
      HasDerivAt (fun t => (RedlichKwong.make ⟨1, 1, 0, 1⟩).get_diff_a_T t)
        ((RedlichKwong.make ⟨1, 1, 0, 1⟩).get_double_diff_a_T 1) 1) ∧
    (HasDerivAt (fun t => (SoaveRedlichKwong.make ⟨1, 1, 0, 1⟩).get_a t)
        ((SoaveRedlichKwong.make ⟨1, 1, 0, 1⟩).get_diff_a_T 1) 1 ∧
      HasDerivAt
        (fun t => (SoaveRedlichKwong.make ⟨1, 1, 0, 1⟩).get_diff_a_T t)
        ((SoaveRedlichKwong.make ⟨1, 1, 0, 1⟩).get_double_diff_a_T 1) 1) ∧
    (HasDerivAt (fun t => (PengRobinson.make ⟨1, 1, 0, 1⟩).get_a t)
        ((PengRobinson.make ⟨1, 1, 0, 1⟩).get_diff_a_T 1) 1 ∧
      HasDerivAt (fun t => (PengRobinson.make ⟨1, 1, 0, 1⟩).get_diff_a_T t)
        ((PengRobinson.make ⟨1, 1, 0, 1⟩).get_double_diff_a_T 1) 1) :=
  attraction_derivatives ⟨1, 1, 0, 1⟩ 1 (by norm_num) (by norm_num) (by norm_num)

end Pythermophy

end
